import Mathlib

/-
Verification of the channel-attribution aggregation and budget-allocation
core of the marketing-reporting tool, embedded from the MeridianWrapper
class (methods get_optimal_budget_allocation and generate_report_data).

Modelling decisions:
  * JavaScript numbers are modelled by JVal: a rational (the exact-real
    idealisation of an ordinary finite double), NaN, or a signed infinity.
    Arithmetic on JVal follows the IEEE/JS rules that matter here:
    x / 0 yields a signed infinity (NaN for 0 / 0), 0 * infinity yields
    NaN, NaN propagates through arithmetic, and every ordering comparison
    involving NaN is false.  Inputs (contribution series, ROI statistics,
    budgets, constraint bounds) are plain rationals, as the upstream data
    consists of ordinary finite numbers.
  * JavaScript objects (Record<string, T>) are association lists that
    preserve insertion order, matching for-in enumeration order.
  * Math.random() in generate_report_data is made explicit as a stream
    parameter (rand : Nat -> ℚ): call i of Math.random during one
    invocation reads rand i.  Two invocations of the method correspond to
    two applications with (in general) different streams.
  * The wrapper object fields read by the two embedded methods are
    results and channelColumns; the remaining fields (model, data,
    dateColumn, targetColumn, controlColumns) are never read by them and
    are omitted from the state record.
  * The thrown JavaScript errors are modelled by the JsError type.  The
    source only ever constructs a generic Error with a message
    (JsError.jsError) or hits a TypeError reading a property of
    undefined (JsError.typeError); the named constructors
    degenerateWeightsError, infeasibleConstraintsError and
    misalignedSeriesError come from the error taxonomy of the design
    document and are included so that theorems can state that the code
    does or does not produce them.
-/

/-- A JavaScript number: a finite value (exact rational), NaN, or a signed
infinity (`inf true` is positive infinity, `inf false` negative). -/
inductive JVal where
  | num : ℚ → JVal
  | nan : JVal
  | inf : Bool → JVal
deriving DecidableEq, Repr

/-- JavaScript addition on JVal. -/
def jvAdd : JVal → JVal → JVal
  | JVal.num a, JVal.num b => JVal.num (a + b)
  | JVal.nan, _ => JVal.nan
  | _, JVal.nan => JVal.nan
  | JVal.inf s, JVal.inf t => if s = t then JVal.inf s else JVal.nan
  | JVal.inf s, JVal.num _ => JVal.inf s
  | JVal.num _, JVal.inf t => JVal.inf t

/-- JavaScript multiplication on JVal: zero times an infinity is NaN. -/
def jvMul : JVal → JVal → JVal
  | JVal.num a, JVal.num b => JVal.num (a * b)
  | JVal.nan, _ => JVal.nan
  | _, JVal.nan => JVal.nan
  | JVal.inf s, JVal.inf t => JVal.inf (s = t)
  | JVal.inf s, JVal.num b => if b = 0 then JVal.nan else JVal.inf (s = decide (0 < b))
  | JVal.num a, JVal.inf t => if a = 0 then JVal.nan else JVal.inf (t = decide (0 < a))

/-- JavaScript division on JVal: a / 0 is a signed infinity for a other
than 0, and 0 / 0 is NaN. -/
def jvDiv : JVal → JVal → JVal
  | JVal.num a, JVal.num b =>
      if b = 0 then (if a = 0 then JVal.nan else JVal.inf (decide (0 < a)))
      else JVal.num (a / b)
  | JVal.nan, _ => JVal.nan
  | _, JVal.nan => JVal.nan
  | JVal.inf _, JVal.inf _ => JVal.nan
  | JVal.inf s, JVal.num b => if b = 0 then JVal.inf s else JVal.inf (s = decide (0 ≤ b))
  | JVal.num _, JVal.inf _ => JVal.num 0

/-- JavaScript strict comparison a < b; false whenever NaN is involved. -/
def jvLt : JVal → JVal → Bool
  | JVal.num a, JVal.num b => decide (a < b)
  | JVal.nan, _ => false
  | _, JVal.nan => false
  | JVal.inf s, JVal.inf t => !s && t
  | JVal.inf s, JVal.num _ => !s
  | JVal.num _, JVal.inf t => t

/-- JavaScript strict comparison a > b; false whenever NaN is involved. -/
def jvGt (a b : JVal) : Bool := jvLt b a

/-- JavaScript strict equality (===) on numbers; NaN === x is false. -/
def jvEq : JVal → JVal → Bool
  | JVal.num a, JVal.num b => decide (a = b)
  | JVal.inf s, JVal.inf t => decide (s = t)
  | _, _ => false

/-- Sum of a list of JVal values in the style of reduce with initial
accumulator 0, as in the source reduce((sum, x) => sum + x, 0). -/
def jvalSum (l : List JVal) : JVal := l.foldl jvAdd (JVal.num 0)

/-- An ROI estimate stored per channel in the model results. -/
structure RoiValue where
  mean : ℚ
  std : ℚ
  lower_bound : ℚ
  upper_bound : ℚ
deriving DecidableEq, Repr

/-- The model-fit accuracy block of the results object. -/
structure ModelFit where
  r_squared : ℚ
  mape : ℚ
deriving DecidableEq, Repr

/-- The results object produced by fit_model and read by the allocator and
the report generator. -/
structure Results where
  channel_contributions : List (String × List ℚ)
  roi_values : List (String × RoiValue)
  model_fit : ModelFit
deriving DecidableEq, Repr

/-- The MeridianWrapper instance state, restricted to the fields read by
get_optimal_budget_allocation and generate_report_data. -/
structure MeridianWrapper where
  results : Option Results
  channelColumns : List String
deriving DecidableEq, Repr

/-- A per-channel budget constraint; each bound is optional, mirroring the
JavaScript membership tests for the min and max keys. -/
structure Constraint where
  min : Option ℚ
  max : Option ℚ
deriving DecidableEq, Repr

/-- The JavaScript errors thrown (or, per the design document, specified
to be thrown) by the core.  The source constructs only jsError with a
message; typeError models a property access on undefined.  The three
named constructors are the error taxonomy of the design document. -/
inductive JsError where
  | jsError : String → JsError
  | typeError : JsError
  | degenerateWeightsError : JsError
  | infeasibleConstraintsError : List String → JsError
  | misalignedSeriesError : List String → JsError
deriving DecidableEq, Repr

/-- True exactly on the two named allocator failures of the design
document. -/
def isNamedAllocatorError : JsError → Bool
  | JsError.degenerateWeightsError => true
  | JsError.infeasibleConstraintsError _ => true
  | _ => false

/-- Sum of a rational series in the style of the source
reduce((sum, val) => sum + val, 0). -/
def sumQ (l : List ℚ) : ℚ := l.foldl (· + ·) 0

/-- The roiMeans record built by the allocator: for each channel of
roi_values, its mean. -/
def roiMeansOf (res : Results) : List (String × ℚ) :=
  res.roi_values.map (fun x => (x.1, x.2.mean))

/-- The totalRoi accumulator of the allocator: sum of all ROI means. -/
def totalRoiOf (res : Results) : ℚ :=
  ((roiMeansOf res).map (fun x => x.2)).foldl (· + ·) 0

/-- Overwrite the value stored under key c in an association list. -/
def setKey (c : String) (v : JVal) (l : List (String × JVal)) : List (String × JVal) :=
  l.map (fun x => if x.1 = c then (x.1, v) else x)

/-- One iteration of the constraint loop body: if channel c is present in
the allocation, clamp its value below by the min bound (when supplied)
and then above by the max bound (when supplied), each via a JavaScript
comparison and assignment. -/
def applyOne (c : String) (con : Constraint) (alloc : List (String × JVal)) :
    List (String × JVal) :=
  match alloc.lookup c with
  | none => alloc
  | some v =>
    let v1 := match con.min with
      | some m => if jvLt v (JVal.num m) then JVal.num m else v
      | none => v
    let v2 := match con.max with
      | some m => if jvGt v1 (JVal.num m) then JVal.num m else v1
      | none => v1
    setKey c v2 alloc

/-- The for-in loop over the constraints record, applied in insertion
order. -/
def applyConstraints : List (String × Constraint) → List (String × JVal) →
    List (String × JVal)
  | [], alloc => alloc
  | (c, con) :: rest, alloc => applyConstraints rest (applyOne c con alloc)

/-- MeridianWrapper.get_optimal_budget_allocation: seeds an allocation
proportional to ROI means, clamps each constrained channel into its
bounds, and rescales uniformly when the post-clamp total differs (by
strict JavaScript inequality) from the requested budget.  Fails only when
no model results exist. -/
def get_optimal_budget_allocation (st : MeridianWrapper) (totalBudget : ℚ)
    (constraints : Option (List (String × Constraint))) :
    Except JsError (List (String × JVal)) :=
  match st.results with
  | none => Except.error (JsError.jsError ("No model results. Call fit_model() first."))
  | some res =>
    let roiMeans := roiMeansOf res
    let totalRoi := totalRoiOf res
    let allocation : List (String × JVal) :=
      roiMeans.map (fun x =>
        (x.1, jvMul (jvDiv (JVal.num x.2) (JVal.num totalRoi)) (JVal.num totalBudget)))
    let allocation :=
      match constraints with
      | none => allocation
      | some cs => applyConstraints cs allocation
    let currentTotal := jvalSum (allocation.map (fun x => x.2))
    let allocation :=
      if jvEq currentTotal (JVal.num totalBudget) then allocation
      else
        let scalingFactor := jvDiv (JVal.num totalBudget) currentTotal
        allocation.map (fun x => (x.1, jvMul x.2 scalingFactor))
    Except.ok allocation

/-- Per-channel data gathered by the report loop: the contribution series
and the ROI record of each channel column, in column order. -/
abbrev ChannelData := String × List ℚ × RoiValue

/-- Look up the contribution series and ROI record of every channel
column; none models the TypeError raised in JavaScript when a channel is
missing from the results object. -/
def collectChannels : List String → Results → Option (List ChannelData)
  | [], _ => some []
  | c :: cs, res => do
    let contrib ← res.channel_contributions.lookup c
    let roi ← res.roi_values.lookup c
    let rest ← collectChannels cs res
    pure ((c, contrib, roi) :: rest)

/-- The totalContribution accumulator of the report loop: per-channel
series sums added up in column order. -/
def grandTotal (items : List ChannelData) : ℚ :=
  (items.map (fun x => sumQ x.2.1)).foldl (· + ·) 0

/-- One channel_performance entry, with the contribution percentage as
computed by the second loop of the source: the channel total divided (in
JavaScript arithmetic) by the grand total. -/
structure ChannelPerformance where
  roi : ℚ
  roi_lower : ℚ
  roi_upper : ℚ
  total_contribution : ℚ
  contribution_percentage : JVal
deriving DecidableEq, Repr

/-- The channel_performance entry built for one channel. -/
def mkPerformance (grand : ℚ) (x : ChannelData) : String × ChannelPerformance :=
  (x.1,
    { roi := x.2.2.mean
      roi_lower := x.2.2.lower_bound
      roi_upper := x.2.2.upper_bound
      total_contribution := sumQ x.2.1
      contribution_percentage := jvDiv (JVal.num (sumQ x.2.1)) (JVal.num grand) })

/-- The model_summary block of the report. -/
structure ModelSummary where
  r_squared : ℚ
  mape : ℚ
  period_start : String
  period_end : String
  channels_analyzed : Nat
deriving DecidableEq, Repr

/-- The time_series_data block of the report. -/
structure TimeSeriesData where
  dates : List String
  target : List ℚ
  channel_contributions : List (String × List ℚ)
deriving DecidableEq, Repr

/-- The report object returned by generate_report_data. -/
structure ReportData where
  model_summary : ModelSummary
  channel_performance : List (String × ChannelPerformance)
  time_series_data : TimeSeriesData
deriving DecidableEq, Repr

/-- Two-digit zero padding of a day-of-month. -/
def twoDigits (n : Nat) : String :=
  if n < 10 then ("0") ++ toString n else toString n

/-- The ISO date produced for index i of the 90-day window starting
2025-01-01 (January has 31 days, February 2025 has 28, March has 31). -/
def dateStr (i : Nat) : String :=
  if i < 31 then ("2025-01-") ++ twoDigits (i + 1)
  else if i < 59 then ("2025-02-") ++ twoDigits (i - 30)
  else ("2025-03-") ++ twoDigits (i - 58)

/-- The report built from the collected channel data.  The two source
loops collapse to maps: the first loop accumulates grandTotal and builds
the entries, the second fills each contribution_percentage from the
fully-accumulated total, which depends only on the channel data. -/
def buildReport (st : MeridianWrapper) (res : Results) (items : List ChannelData)
    (rand : Nat → ℚ) : ReportData :=
  let totalContribution := grandTotal items
  { model_summary :=
      { r_squared := res.model_fit.r_squared
        mape := res.model_fit.mape
        period_start := ("2025-01-01")
        period_end := ("2025-03-31")
        channels_analyzed := st.channelColumns.length }
    channel_performance := items.map (mkPerformance totalContribution)
    time_series_data :=
      { dates := (List.range 90).map dateStr
        target := (List.range 90).map (fun i => rand i * 10000 + 5000)
        channel_contributions := items.map (fun x => (x.1, x.2.1)) } }

/-- MeridianWrapper.generate_report_data, with the Math.random draws of
the mock target series made explicit as the stream rand. -/
def generate_report_data (st : MeridianWrapper) (rand : Nat → ℚ) :
    Except JsError ReportData :=
  match st.results with
  | none => Except.error (JsError.jsError ("No model results. Call fit_model() first."))
  | some res =>
    match collectChannels st.channelColumns res with
    | none => Except.error JsError.typeError
    | some items => Except.ok (buildReport st res items rand)

/-- The channel_performance contribution percentages of a report result,
when the call succeeded. -/
def reportPercentages (r : Except JsError ReportData) : Option (List (String × JVal)) :=
  match r with
  | Except.ok rd => some (rd.channel_performance.map (fun p => (p.1, p.2.contribution_percentage)))
  | Except.error _ => none

/-- The channel_performance total contributions of a report result, when
the call succeeded. -/
def reportTotals (r : Except JsError ReportData) : Option (List (String × ℚ)) :=
  match r with
  | Except.ok rd => some (rd.channel_performance.map (fun p => (p.1, p.2.total_contribution)))
  | Except.error _ => none

/-- A wrapper state whose results hold the given contribution series and
ROI records, with channel columns taken from the series keys (as
load_data defaults them from the data channel keys). -/
def mkState (contribs : List (String × List ℚ)) (rois : List (String × RoiValue)) :
    MeridianWrapper :=
  { results := some
      { channel_contributions := contribs
        roi_values := rois
        model_fit := { r_squared := 0, mape := 0 } }
    channelColumns := contribs.map (fun x => x.1) }

/-- An ROI record with the given mean and a degenerate interval. -/
def mkRoi (m : ℚ) : RoiValue :=
  { mean := m, std := 0, lower_bound := m, upper_bound := m }

attribute [local semireducible] Rat.add Rat.mul Rat.inv Rat.sub Rat.ofScientific

deriving instance DecidableEq for Except

/-- Folding addition over rationals from any accumulator is the
accumulator plus the list sum. -/
lemma foldl_add_eq_sum (l : List ℚ) (a : ℚ) : l.foldl (· + ·) a = a + l.sum := by
  induction l generalizing a with
  | nil => simp
  | cons x xs ih => simp [List.foldl_cons, ih]; ring

/-- The grand total accumulated by the report loop is the sum of the
per-channel series sums. -/
lemma grandTotal_eq_sum (items : List ChannelData) :
    grandTotal items = (items.map fun x => sumQ x.2.1).sum := by
  simp [grandTotal, foldl_add_eq_sum]

/-- Dividing every element of a list by a common denominator divides the
sum. -/
lemma sum_map_div (l : List ℚ) (g : ℚ) :
    (l.map fun q => q / g).sum = l.sum / g := by
  induction l with
  | nil => simp
  | cons x xs ih => simp [ih, add_div]

/-- The JavaScript sum of a list of finite numbers is the finite number
given by the rational sum. -/
lemma jvalSum_map_num (l : List ℚ) : jvalSum (l.map JVal.num) = JVal.num l.sum := by
  have aux : ∀ (m : List ℚ) (q : ℚ),
      (m.map JVal.num).foldl jvAdd (JVal.num q) = JVal.num (q + m.sum) := by
    intro m
    induction m with
    | nil => intro q; simp
    | cons x xs ih => intro q; simp [List.foldl_cons, jvAdd, ih]; ring
  simpa [jvalSum] using aux l 0

/-- C6: for every non-empty set of channels whose contribution grand total
is nonzero, generate_report_data succeeds, the contribution percentages
over all channels sum (in JavaScript arithmetic) to exactly 1 — which in
particular is within the 1e-9 relative tolerance of the claim — and each
channel total_contribution is the sum of its contribution series. -/
theorem report_share_invariant (st : MeridianWrapper) (res : Results)
    (items : List ChannelData) (rand : Nat → ℚ)
    (hres : st.results = some res)
    (hcol : collectChannels st.channelColumns res = some items)
    (hne : items ≠ [])
    (hg : grandTotal items ≠ 0) :
    ∃ rd, generate_report_data st rand = Except.ok rd ∧
      jvalSum (rd.channel_performance.map (fun p => p.2.contribution_percentage)) = JVal.num 1 ∧
      rd.channel_performance.map (fun p => (p.1, p.2.total_contribution))
        = items.map (fun x => (x.1, sumQ x.2.1)) := by
  have hgen : generate_report_data st rand = Except.ok (buildReport st res items rand) := by
    simp [generate_report_data, hres, hcol]
  refine ⟨buildReport st res items rand, hgen, ?_, ?_⟩
  · have hperf : (buildReport st res items rand).channel_performance
        = items.map (mkPerformance (grandTotal items)) := rfl
    rw [hperf, List.map_map]
    have hcomp : ((fun p : String × ChannelPerformance => p.2.contribution_percentage)
          ∘ mkPerformance (grandTotal items))
        = fun x : ChannelData => JVal.num (sumQ x.2.1 / grandTotal items) := by
      funext x
      simp [mkPerformance, Function.comp, jvDiv, hg]
    rw [hcomp]
    have hnum : (fun x : ChannelData => JVal.num (sumQ x.2.1 / grandTotal items))
        = JVal.num ∘ fun x : ChannelData => sumQ x.2.1 / grandTotal items := rfl
    rw [hnum, ← List.map_map, jvalSum_map_num]
    have hsplit : (items.map fun x : ChannelData => sumQ x.2.1 / grandTotal items)
        = (items.map fun x : ChannelData => sumQ x.2.1).map (fun q => q / grandTotal items) := by
      rw [List.map_map]; rfl
    rw [hsplit, sum_map_div, ← grandTotal_eq_sum, div_self hg]
  · have hperf : (buildReport st res items rand).channel_performance
        = items.map (mkPerformance (grandTotal items)) := rfl
    rw [hperf, List.map_map]
    rfl

/-- The concrete results object of the share-invariant witness: channel A
contributes [100, 200, 300], channel B contributes [0, 0, 0]. -/
def resShare : Results :=
  { channel_contributions := [("A", [100, 200, 300]), ("B", [0, 0, 0])]
    roi_values := [("A", mkRoi 4), ("B", mkRoi 1)]
    model_fit := { r_squared := 0, mape := 0 } }

/-- The wrapper state of the share-invariant witness. -/
def stShare : MeridianWrapper :=
  { results := some resShare, channelColumns := ["A", "B"] }

/-- The channel data collected from the share-invariant witness state. -/
def itemsShare : List ChannelData :=
  [("A", [100, 200, 300], mkRoi 4), ("B", [0, 0, 0], mkRoi 1)]

/-- C6 witness: the share invariant instantiated at a concrete two-channel
state with grand total 600. -/
theorem report_share_invariant_witness :
    stShare.results = some resShare ∧
    collectChannels stShare.channelColumns resShare = some itemsShare ∧
    itemsShare ≠ [] ∧ grandTotal itemsShare ≠ 0 ∧
    (∃ rd, generate_report_data stShare (fun _ => 0) = Except.ok rd ∧
      jvalSum (rd.channel_performance.map (fun p => p.2.contribution_percentage)) = JVal.num 1 ∧
      rd.channel_performance.map (fun p => (p.1, p.2.total_contribution))
        = itemsShare.map (fun x => (x.1, sumQ x.2.1))) :=
  ⟨rfl, by decide, by decide, by decide,
    report_share_invariant stShare resShare itemsShare (fun _ => 0) rfl (by decide)
      (by decide) (by decide)⟩

/-- C10: whenever the wrapper has no model results, the allocator throws
the generic Error with message "No model results. Call fit_model() first.",
which is neither of the two named allocator failures of the design
document, and no allocation is returned. -/
theorem alloc_requires_results (st : MeridianWrapper) (b : ℚ)
    (cons : Option (List (String × Constraint))) (h : st.results = none) :
    get_optimal_budget_allocation st b cons
      = Except.error (JsError.jsError ("No model results. Call fit_model() first.")) ∧
    isNamedAllocatorError (JsError.jsError ("No model results. Call fit_model() first."))
      = false := by
  refine ⟨?_, rfl⟩
  simp [get_optimal_budget_allocation, h]

/-- A wrapper state on which fit_model has not been called. -/
def stNoResults : MeridianWrapper := { results := none, channelColumns := [] }

/-- C10 witness: the no-results failure instantiated at a concrete state
and budget. -/
theorem alloc_requires_results_witness :
    stNoResults.results = none ∧
    (get_optimal_budget_allocation stNoResults 100000 none
      = Except.error (JsError.jsError ("No model results. Call fit_model() first.")) ∧
    isNamedAllocatorError (JsError.jsError ("No model results. Call fit_model() first."))
      = false) :=
  ⟨rfl, alloc_requires_results stNoResults 100000 none rfl⟩

/-- C1: failing input for bound-respect.  With ROI means A=4, B=1, budget
100000 and the constraint max[A]=50000, the allocator clamps A to 50000
but then rescales uniformly by 10/7, returning A = 500000/7 (about
71428.57), which exceeds the max bound by far more than the 1e-6
tolerance; no error is raised. -/
theorem alloc_bound_violation :
    get_optimal_budget_allocation
        (mkState [("A", [0]), ("B", [0])] [("A", mkRoi 4), ("B", mkRoi 1)]) 100000
        (some [("A", { min := none, max := some 50000 })])
      = Except.ok [("A", JVal.num (500000/7)), ("B", JVal.num (200000/7))] ∧
    (500000/7 : ℚ) > 50000 + 1/1000000 := by
  exact ⟨by decide, by decide⟩

/-- C2: failing input for total-preservation.  With ROI means A=1, B=0,
budget 100000 and the constraint max[A]=0 (a feasible constraint set:
A=0, B=100000 lies within every bound and sums to the budget), the
post-clamp total is 0, the rescale divides by it, and every returned
amount is NaN (0 times infinity); the returned amounts do not sum to the
budget within any tolerance. -/
theorem alloc_total_not_preserved :
    get_optimal_budget_allocation
        (mkState [("A", [0]), ("B", [0])] [("A", mkRoi 1), ("B", mkRoi 0)]) 100000
        (some [("A", { min := none, max := some 0 })])
      = Except.ok [("A", JVal.nan), ("B", JVal.nan)] ∧
    jvalSum [JVal.nan, JVal.nan] = JVal.nan ∧
    ((0:ℚ) ≤ 0 ∧ (0:ℚ) ≤ 0 ∧ (0:ℚ) ≤ 100000 ∧ (100000:ℚ) ≤ 100000 ∧ (0:ℚ) + 100000 = 100000) := by
  exact ⟨by decide, by decide, by decide⟩

/-- C3: failing input for the infeasible-constraints failure.  With ROI
means A=1, B=1, budget 100000 and min bounds of 90000 on both channels
(jointly infeasible: the minimums sum to 180000 > 100000), the allocator
does not raise InfeasibleConstraintsError: it clamps both channels to
90000, rescales by 5/9, and returns 50000 per channel, violating both
min bounds. -/
theorem alloc_no_infeasible_error :
    get_optimal_budget_allocation
        (mkState [("A", [0]), ("B", [0])] [("A", mkRoi 1), ("B", mkRoi 1)]) 100000
        (some [("A", { min := some 90000, max := none }),
               ("B", { min := some 90000, max := none })])
      = Except.ok [("A", JVal.num 50000), ("B", JVal.num 50000)] ∧
    (50000:ℚ) < 90000 ∧ (90000:ℚ) + 90000 > 100000 := by
  exact ⟨by decide, by decide, by decide⟩

/-- The results object of the degenerate-weights failing input: every ROI
mean is negative, so the weight sum is -3. -/
def resNegRoi : Results :=
  { channel_contributions := [("A", [0]), ("B", [0])]
    roi_values := [("A", mkRoi (-1)), ("B", mkRoi (-2))]
    model_fit := { r_squared := 0, mape := 0 } }

/-- C4: failing input for the degenerate-weights failure.  With ROI means
A=-1 and B=-2 the weight sum is -3 <= 0, yet the allocator raises no
DegenerateWeightsError: it divides by the weight sum anyway and returns
the allocation A=100000/3, B=200000/3. -/
theorem alloc_no_degenerate_error :
    totalRoiOf resNegRoi = -3 ∧ ((-3:ℚ) ≤ 0) ∧
    get_optimal_budget_allocation
        { results := some resNegRoi, channelColumns := ["A", "B"] } 100000 none
      = Except.ok [("A", JVal.num (100000/3)), ("B", JVal.num (200000/3))] := by
  exact ⟨by decide, by decide, by decide⟩

/-- C5: failing input for the zero-total policy.  With a single channel
whose contribution series is [0, 0, 0], the grand total is 0 and the
unguarded division yields contribution_percentage NaN (0 / 0), not the
exact 0 the claim requires. -/
theorem report_zero_total_nan :
    reportPercentages
        (generate_report_data (mkState [("A", [0, 0, 0])] [("A", mkRoi 1)]) (fun _ => 0))
      = some [("A", JVal.nan)] ∧ JVal.nan ≠ JVal.num 0 := by
  exact ⟨by decide, by decide⟩

/-- C7: failing input for the misaligned-series failure.  With series
[1, 2, 3] for channel A and [4, 5] for channel B (different lengths), the
report generator raises no MisalignedSeriesError: it returns a complete
aggregate with totals 6 and 9. -/
theorem report_no_misaligned_error :
    reportTotals
        (generate_report_data
          (mkState [("A", [1, 2, 3]), ("B", [4, 5])] [("A", mkRoi 1), ("B", mkRoi 1)])
          (fun _ => 0))
      = some [("A", 6), ("B", 9)] ∧
    ([(1:ℚ), 2, 3].length ≠ [(4:ℚ), 5].length) := by
  exact ⟨by decide, by decide⟩

/-- C8: failing input for non-negativity.  With ROI means A=3 and B=-1
(weight sum 2 > 0) and no constraints, channel B is seeded with the
negative share -50000 and, the post-clamp total already equalling the
budget, is returned negative. -/
theorem alloc_negative_spend :
    get_optimal_budget_allocation
        (mkState [("A", [0]), ("B", [0])] [("A", mkRoi 3), ("B", mkRoi (-1))]) 100000 none
      = Except.ok [("A", JVal.num 150000), ("B", JVal.num (-50000))] ∧
    (-50000:ℚ) < 0 := by
  exact ⟨by decide, by decide⟩

/-- The wrapper state of the determinism failing input. -/
def stRand : MeridianWrapper := mkState [("A", [1])] [("A", mkRoi 1)]

/-- C9: failing input for determinism.  Two invocations of
generate_report_data on the identical wrapper state, differing only in
the values Math.random returns (stream constantly 0 versus constantly
1/2, both legal Math.random outputs), produce different report objects:
the mock time_series_data.target is freshly randomized on every call. -/
theorem report_not_deterministic :
    generate_report_data stRand (fun _ => 0) ≠ generate_report_data stRand (fun _ => 1/2) := by
  decide
